import Mathlib

/-!
Verification of the `hegh/log` Go package (a leveled-logging wrapper over the
standard `log` package) against its natural-language specification.

The embedding follows `log.go` (the version with the named call-depth
constants `rootDepth` and `logDepth`) together with the test-harness
constructor `NewTest` and its helpers from the companion source file.

Modelling conventions:
* `io.Writer` destinations are modelled by `Writer`: an identity (`id`) plus
  the outcome of a `Write` call (`err = none` means the write succeeds,
  `err = some e` means it returns error `e`, as the Go `(int, error)` pair).
* All side effects are collected in an explicit `Event` trace: `out` is a
  successful write of a full line to a sink, `fallback` is the
  `log.Printf` call to the process's base logger made when a sink write
  fails, `harness` is a call into one of the `testing.T`-style capabilities
  (`Logf` / `Errorf` / `Fatalf`), `exitCall` records the invocation of the
  `Exit` callback together with the argument list passed to it (the Go
  callback has type `func()`, so the code always passes `[]`), and `osExit`
  records a call to `os.Exit`.
* The standard library's `log.Logger` prepends its prefix (the one-character
  severity tag) and then a header (date, time and, for `Lshortfile`, the
  `file:line` attributed `calldepth` frames up the stack).  The header is
  ambient runtime data; it is modelled by a parameter `hdr : Nat → String`
  mapping the call depth to the rendered header text, so an emitted line is
  `tag ++ hdr depth ++ message`.
* The `Exit` callback (Go type `func()`, nil-able) is modelled by
  `Option (List Event)`: the effect trace its body produces when invoked.
  The default callback installed by `New` is `func() { os.Exit(1) }`, i.e.
  the trace `[Event.osExit 1]`.
* The global `Root` logger and the global `Verbosity` flag cell are passed
  explicitly: package-level functions take the current `Root` logger, and
  constructors take the current value read through the shared verbosity
  pointer.
* `panic(errors.New(msg))` in `Panicf` is modelled by returning the payload
  message alongside the trace produced up to the point of the panic.
-/

namespace GoLog

/-- The four severity channels of a `Logger`. -/
inductive Sev where
  | info
  | warn
  | error
  | fatal
deriving DecidableEq, Repr

/-- The three `testing.T`-style capabilities of the `TestLogable` interface:
`Logf` (record), `Errorf` (record and mark failed), `Fatalf` (record and
abort the test). -/
inductive Cap where
  | logf
  | errorf
  | fatalf
deriving DecidableEq, Repr

/-- Observable side effects of the package, in order of occurrence. -/
inductive Event where
  | out (sinkId : Nat) (line : String)
  | fallback (line : String)
  | harness (cap : Cap) (line : String)
  | exitCall (args : List Int)
  | osExit (status : Int)
deriving DecidableEq, Repr

/-- An `io.Writer` destination: an identity and the outcome of writing to it
(`err = none`: the write succeeds; `err = some e`: `Write` returns error
`e`, as with a closed or errored file). -/
structure Writer where
  id : Nat
  err : Option String
deriving DecidableEq, Repr

/-- A `Logable` as built by the package: either a standard-library
`log.Logger` whose `rewriter` destination points at one of the `Logger`'s
four sink fields (built by `New` with flags `Ldate|Ltime|Lshortfile`), or a
`testLog` logger writing through a `testWriter` into a harness capability
(built by `NewTest` with flag `Lmicroseconds`). -/
inductive Logable where
  | std (tag : String) (slot : Sev)
  | test (tag : String) (cap : Cap)
deriving DecidableEq, Repr

/-- Call depth when using the default calls to the Root Logger
(from `log.go`). -/
def rootDepth : Nat := 3

/-- Call depth when directly calling log functions on a Logger
(from `log.go`). -/
def logDepth : Nat := 3

/-- Model of `fmt.Sprintf` (an external collaborator): positional
substitution of the string verbs `%v` and `%s` by the next argument; any
other format text passes through unchanged. -/
def sprintfAux : List Char → List String → List Char
  | [], _ => []
  | '%' :: c :: rest, a :: as =>
    if c = 'v' ∨ c = 's' then a.data ++ sprintfAux rest as
    else '%' :: c :: sprintfAux rest as
  | c :: rest, as => c :: sprintfAux rest as

/-- Model of `fmt.Sprintf` on `String` values. -/
def sprintf (format : String) (args : List String) : String :=
  String.mk (sprintfAux format.data args)

/-- The `Logger` struct: a name, the shared verbosity value (read through the
`Verbosity` pointer), the four `Logable` emitters `i w e f`, the four
reassignable sink fields `Info Warn Error Fatal` (nil-able `io.Writer`s),
and the nil-able `Exit` callback. -/
structure Logger where
  name : String
  Verbosity : Int
  i : Logable
  w : Logable
  e : Logable
  f : Logable
  Info : Option Writer
  Warn : Option Writer
  Error : Option Writer
  Fatal : Option Writer
  Exit : Option (List Event)
deriving Repr

/-- Dereference the sink field a severity's `rewriter` points at, at write
time (the `(*w.w)` in `rewriter.Write`). -/
def Logger.sinkOf (l : Logger) : Sev → Option Writer
  | Sev.info => l.Info
  | Sev.warn => l.Warn
  | Sev.error => l.Error
  | Sev.fatal => l.Fatal

/-- `os.Stderr`, the default destination of all four channels. -/
def stderr : Writer := { id := 0, err := none }

/-- `log.Logger.Output` (std case) / the `testWriter.Write` path (test
case): renders `tag ++ header ++ message`, writes it to the currently bound
destination, and reports the destination's write error, if any.  Writing
through a nil sink field is a runtime fault in Go; it is modelled as a
failed write and is unreachable for loggers built by `New` (whose emitters
point at non-nil fields) and by `NewTest` (whose emitters are harness
capabilities). -/
def Logable.Output (lg : Logable) (l : Logger) (hdr : Nat → String)
    (calldepth : Nat) (s : String) : List Event × Option String :=
  match lg with
  | Logable.std tag slot =>
    match l.sinkOf slot with
    | none => ([], some "invalid writer")
    | some dest =>
      match dest.err with
      | some e => ([], some e)
      | none => ([Event.out dest.id (tag ++ hdr calldepth ++ s)], none)
  | Logable.test tag cap => ([Event.harness cap (tag ++ hdr calldepth ++ s)], none)

/-- The diagnostic line `write` hands to the base logger when a sink write
fails. -/
def failNotice (name err msg : String) : String :=
  "Failed to write to " ++ name ++ " logger: " ++ err ++ ".\n  Message: " ++ msg

/-- The package's `write` helper: formats the message, writes it to the
given logger and, if that write returns an error, logs a description
including the message to the base logger; returns the formatted message. -/
def write (lg : Logable) (l : Logger) (hdr : Nat → String) (depth : Nat)
    (name format : String) (args : List String) : String × List Event :=
  let msg := sprintf format args
  match lg.Output l hdr depth msg with
  | (evs, some err) => (msg, evs ++ [Event.fallback (failNotice name err msg)])
  | (evs, none) => (msg, evs)

/-- `Logger.LoudEnough`: whether the verbosity is high enough to include
messages of the given level. -/
def Logger.LoudEnough (l : Logger) (level : Int) : Bool :=
  decide (level ≤ l.Verbosity)

/-- Package-level `LoudEnough`, forwarding to the Root logger. -/
def LoudEnough (Root : Logger) (level : Int) : Bool :=
  Root.LoudEnough level

/-- `Logger.V`: writes at INFO level, but only if the configured verbosity
is at least the given level. -/
def Logger.V (l : Logger) (hdr : Nat → String) (level : Int)
    (format : String) (args : List String) : List Event :=
  if l.LoudEnough level then
    (write l.i l hdr logDepth (l.name ++ " info") format args).2
  else []

/-- Package-level `V`, writing to the Root logger. -/
def V (Root : Logger) (hdr : Nat → String) (level : Int)
    (format : String) (args : List String) : List Event :=
  if Root.LoudEnough level then
    (write Root.i Root hdr rootDepth (Root.name ++ " info") format args).2
  else []

/-- `Logger.Infof`: writes at INFO level. -/
def Logger.Infof (l : Logger) (hdr : Nat → String)
    (format : String) (args : List String) : List Event :=
  (write l.i l hdr logDepth (l.name ++ " info") format args).2

/-- `Logger.Printf`: synonymous with `Infof`. -/
def Logger.Printf (l : Logger) (hdr : Nat → String)
    (format : String) (args : List String) : List Event :=
  (write l.i l hdr logDepth (l.name ++ " info") format args).2

/-- `Logger.Warnf`: writes at WARN level. -/
def Logger.Warnf (l : Logger) (hdr : Nat → String)
    (format : String) (args : List String) : List Event :=
  (write l.w l hdr logDepth (l.name ++ " warn") format args).2

/-- `Logger.Errorf`: writes at ERROR level. -/
def Logger.Errorf (l : Logger) (hdr : Nat → String)
    (format : String) (args : List String) : List Event :=
  (write l.e l hdr logDepth (l.name ++ " error") format args).2

/-- `Logger.Panicf`: writes at ERROR level, then panics with
`errors.New(msg)`.  Result: the trace produced before the panic, and the
message carried by the panic payload. -/
def Logger.Panicf (l : Logger) (hdr : Nat → String)
    (format : String) (args : List String) : List Event × String :=
  let r := write l.e l hdr logDepth (l.name ++ " error") format args
  (r.2, r.1)

/-- `Logger.Fatalf`: writes at FATAL level, then calls `Exit` if non-nil
(with no arguments, recorded by `exitCall []` followed by the callback
body's effects). -/
def Logger.Fatalf (l : Logger) (hdr : Nat → String)
    (format : String) (args : List String) : List Event :=
  let r := write l.f l hdr logDepth (l.name ++ " fatal") format args
  r.2 ++ (match l.Exit with
    | some body => Event.exitCall [] :: body
    | none => [])

/-- `New`: a fresh Logger with the given name, all four channels bound to
`os.Stderr`, verbosity bound to the shared flag (whose current value is
`verbosity`), and `Exit` defaulting to `func() { os.Exit(1) }`. -/
def New (name : String) (verbosity : Int) : Logger :=
  { name := name
    Verbosity := verbosity
    i := Logable.std "I" Sev.info
    w := Logable.std "W" Sev.warn
    e := Logable.std "E" Sev.error
    f := Logable.std "F" Sev.fatal
    Info := some stderr
    Warn := some stderr
    Error := some stderr
    Fatal := some stderr
    Exit := some [Event.osExit 1] }

/-- `NewTest`: a Logger for use inside a test function.  The harness `t` is
represented by its three capabilities; `Info`/`Warn` route to `t.Logf`,
`Error` routes to `t.Errorf` when `failOnError` and to `t.Logf` otherwise,
`Fatal` always routes to `t.Fatalf`.  The raw sink fields and the `Exit`
callback are left at their Go zero value (nil). -/
def NewTest (name : String) (failOnError : Bool) (verbosity : Int) : Logger :=
  { name := name
    Verbosity := verbosity
    i := Logable.test "I" Cap.logf
    w := Logable.test "W" Cap.logf
    e := if failOnError then Logable.test "E" Cap.errorf else Logable.test "E" Cap.logf
    f := Logable.test "F" Cap.fatalf
    Info := none
    Warn := none
    Error := none
    Fatal := none
    Exit := none }

/-- Reassignment of one severity's sink field (the Go field assignment
`l.Info = w` etc. the README describes for redirection). -/
def Logger.setSink (l : Logger) (s : Sev) (dest : Writer) : Logger :=
  match s with
  | Sev.info => { l with Info := some dest }
  | Sev.warn => { l with Warn := some dest }
  | Sev.error => { l with Error := some dest }
  | Sev.fatal => { l with Fatal := some dest }

/-- Reassignment of the `Exit` callback (`l.Exit = cb`). -/
def Logger.setExit (l : Logger) (cb : Option (List Event)) : Logger :=
  { l with Exit := cb }

/-- The severity method selected by a channel: `Infof`, `Warnf`, `Errorf`
or `Fatalf`. -/
def Logger.emitAt (l : Logger) (hdr : Nat → String) (s : Sev)
    (format : String) (args : List String) : List Event :=
  match s with
  | Sev.info => l.Infof hdr format args
  | Sev.warn => l.Warnf hdr format args
  | Sev.error => l.Errorf hdr format args
  | Sev.fatal => l.Fatalf hdr format args

/-- The one-character tag of each channel, as installed by `New`. -/
def tagOf : Sev → String
  | Sev.info => "I"
  | Sev.warn => "W"
  | Sev.error => "E"
  | Sev.fatal => "F"

/-- The channel-name suffix `write` receives for each severity. -/
def chanSuffix : Sev → String
  | Sev.info => " info"
  | Sev.warn => " warn"
  | Sev.error => " error"
  | Sev.fatal => " fatal"

/-- Whether an event is a successful sink write. -/
def isOut : Event → Bool
  | Event.out _ _ => true
  | _ => false

/-- Whether an event is a successful write to the sink with the given
identity. -/
def outTo (n : Nat) : Event → Bool
  | Event.out k _ => decide (k = n)
  | _ => false

/-- A `New` logger with all four sinks redirected to the given writers, the
redirection pattern from the README. -/
def fourSinks (name : String) (verbosity : Int) (wi ww we wf : Writer) : Logger :=
  ((((New name verbosity).setSink Sev.info wi).setSink Sev.warn ww).setSink
    Sev.error we).setSink Sev.fatal wf

/-- The writer bound to each severity in `fourSinks`. -/
def pick (wi ww we wf : Writer) : Sev → Writer
  | Sev.info => wi
  | Sev.warn => ww
  | Sev.error => we
  | Sev.fatal => wf

/-- Model of `runtime.Caller`-style frame lookup as performed by
`log.Logger.Output` under `Lshortfile`: index 0 is `Output` itself,
increasing toward outer callers; the location reported is the frame at
index `calldepth`. -/
def caller (stack : List String) (depth : Nat) : Option String :=
  stack.get? depth

/-- The call stack at the point `Output` inspects it, for a direct severity
method call: user code calls `Logger.Infof`, which calls `write`, which
calls `Output` (from the source call structure). -/
def methodCallStack (c : String) : List String :=
  ["log.Logger.Output", "log.write", "log.Logger.Infof", c]

/-- The call stack at the point `Output` inspects it, for a package-level
call: user code calls the free function `Infof`, which calls `write` on the
Root logger's emitter directly, which calls `Output`. -/
def rootCallStack (c : String) : List String :=
  ["log.Logger.Output", "log.write", "log.Infof", c]

/-- The fallback diagnostic line contains the failing channel's name and
the original formatted message as substrings. -/
lemma failNotice_contains (n e m : String) :
    (∃ s1 s2, failNotice n e m = s1 ++ n ++ s2) ∧ ∃ s3, failNotice n e m = s3 ++ m := by
  constructor
  · refine ⟨"Failed to write to ", " logger: " ++ e ++ ".\n  Message: " ++ m, ?_⟩
    simp [failNotice, String.append_assoc]
  · exact ⟨_, rfl⟩

/-- C1: `LoudEnough(level)` returns true exactly when `level ≤` the current
verbosity threshold, for both the Logger method and the package-level
function forwarding to Root; consequently `V(L1, …)` with `L1 ≤ L0` emits
exactly one Info-level line and `V(L2, …)` with `L2 > L0` emits nothing,
on both the method path and the package-level path. -/
theorem C1_verbosity_gate (nm : String) (L0 L1 L2 lev : Int) (hdr : Nat → String)
    (format : String) (args : List String) (h1 : L1 ≤ L0) (h2 : L0 < L2) :
    Logger.V (New nm L0) hdr L1 format args
      = [Event.out stderr.id ("I" ++ hdr logDepth ++ sprintf format args)]
    ∧ Logger.V (New nm L0) hdr L2 format args = []
    ∧ Logger.LoudEnough (New nm L0) lev = decide (lev ≤ L0)
    ∧ LoudEnough (New nm L0) lev = Logger.LoudEnough (New nm L0) lev
    ∧ V (New nm L0) hdr L1 format args
      = [Event.out stderr.id ("I" ++ hdr rootDepth ++ sprintf format args)]
    ∧ V (New nm L0) hdr L2 format args = [] := by
  have hLE : Logger.LoudEnough (New nm L0) L1 = true := decide_eq_true h1
  have hGT : Logger.LoudEnough (New nm L0) L2 = false :=
    decide_eq_false (not_le.mpr h2)
  refine ⟨?_, ?_, rfl, rfl, ?_, ?_⟩
  · unfold Logger.V
    rw [hLE]
    rfl
  · unfold Logger.V
    rw [hGT]
    rfl
  · unfold V
    rw [hLE]
    rfl
  · unfold V
    rw [hGT]
    rfl

theorem C1_verbosity_gate_witness :
    Logger.V (New "" 5) (fun _ => " ") 3 "x" []
      = [Event.out stderr.id ("I" ++ (fun _ : Nat => " ") logDepth ++ sprintf "x" [])]
    ∧ Logger.V (New "" 5) (fun _ => " ") 7 "x" [] = []
    ∧ Logger.LoudEnough (New "" 5) 0 = decide ((0 : Int) ≤ 5)
    ∧ LoudEnough (New "" 5) 0 = Logger.LoudEnough (New "" 5) 0
    ∧ V (New "" 5) (fun _ => " ") 3 "x" []
      = [Event.out stderr.id ("I" ++ (fun _ : Nat => " ") rootDepth ++ sprintf "x" [])]
    ∧ V (New "" 5) (fun _ => " ") 7 "x" [] = [] :=
  C1_verbosity_gate "" 5 3 7 0 (fun _ => " ") "x" [] (by decide) (by decide)

/-- C2: when the bound sink's write fails, every severity method still
returns normally (the trace below is its complete effect), writes nothing
to any sink, and writes one fallback diagnostic line to the base logger —
a line containing the failing channel's name and the original formatted
message as substrings. -/
theorem C2_sink_failure_recovered (nm : String) (v : Int) (dest : Writer)
    (emsg : String) (hdr : Nat → String) (format : String) (args : List String)
    (s : Sev) (hfail : dest.err = some emsg) :
    (((New nm v).setSink s dest).emitAt hdr s format args).head?
      = some (Event.fallback (failNotice (nm ++ chanSuffix s) emsg (sprintf format args)))
    ∧ (((New nm v).setSink s dest).emitAt hdr s format args).filter isOut = []
    ∧ (∃ s1 s2, failNotice (nm ++ chanSuffix s) emsg (sprintf format args)
        = s1 ++ (nm ++ chanSuffix s) ++ s2)
    ∧ (∃ s3, failNotice (nm ++ chanSuffix s) emsg (sprintf format args)
        = s3 ++ sprintf format args) := by
  cases s <;>
    refine ⟨?_, ?_, (failNotice_contains _ _ _).1, (failNotice_contains _ _ _).2⟩ <;>
      simp [Logger.emitAt, Logger.Infof, Logger.Warnf, Logger.Errorf, Logger.Fatalf,
        write, Logable.Output, Logger.sinkOf, Logger.setSink, New, hfail, chanSuffix,
        isOut, List.filter]

theorem C2_sink_failure_recovered_witness :
    (((New "app" 0).setSink Sev.error { id := 5, err := some "file closed" }).emitAt
        (fun _ => " ") Sev.error "x%v" ["y"]).head?
      = some (Event.fallback (failNotice ("app" ++ chanSuffix Sev.error) "file closed"
          (sprintf "x%v" ["y"])))
    ∧ (((New "app" 0).setSink Sev.error { id := 5, err := some "file closed" }).emitAt
        (fun _ => " ") Sev.error "x%v" ["y"]).filter isOut = []
    ∧ (∃ s1 s2, failNotice ("app" ++ chanSuffix Sev.error) "file closed" (sprintf "x%v" ["y"])
        = s1 ++ ("app" ++ chanSuffix Sev.error) ++ s2)
    ∧ (∃ s3, failNotice ("app" ++ chanSuffix Sev.error) "file closed" (sprintf "x%v" ["y"])
        = s3 ++ sprintf "x%v" ["y"]) :=
  C2_sink_failure_recovered "app" 0 { id := 5, err := some "file closed" } "file closed"
    (fun _ => " ") "x%v" ["y"] Sev.error (by rfl)

/-- C7: reassigning a severity's sink binding takes effect on the next
write without rebuilding the emitters — the next write at that severity
lands on the newly bound sink (the emitter re-reads the sink field at write
time), the four `Logable` emitters are unchanged by the reassignment, and a
write at any other severity is completely unaffected. -/
theorem C7_sink_rebinding (nm : String) (v : Int) (dest : Writer)
    (hdr : Nat → String) (format : String) (args : List String) (s s' : Sev)
    (hok : dest.err = none) (hne : s' ≠ s) :
    (((New nm v).setSink s dest).emitAt hdr s format args).filter isOut
      = [Event.out dest.id (tagOf s ++ hdr logDepth ++ sprintf format args)]
    ∧ ((New nm v).setSink s dest).emitAt hdr s' format args
      = (New nm v).emitAt hdr s' format args
    ∧ ((New nm v).setSink s dest).i = (New nm v).i
    ∧ ((New nm v).setSink s dest).w = (New nm v).w
    ∧ ((New nm v).setSink s dest).e = (New nm v).e
    ∧ ((New nm v).setSink s dest).f = (New nm v).f := by
  cases s <;> cases s' <;>
    first
      | exact absurd rfl hne
      | refine ⟨?_, rfl, rfl, rfl, rfl, rfl⟩ <;>
          simp [Logger.emitAt, Logger.Infof, Logger.Warnf, Logger.Errorf, Logger.Fatalf,
            write, Logable.Output, Logger.sinkOf, Logger.setSink, New, hok, tagOf,
            isOut, List.filter]

theorem C7_sink_rebinding_witness :
    (((New "" 0).setSink Sev.error { id := 7, err := none }).emitAt
        (fun _ => " ") Sev.error "x" []).filter isOut
      = [Event.out ({ id := 7, err := none } : Writer).id
          (tagOf Sev.error ++ (fun _ : Nat => " ") logDepth ++ sprintf "x" [])]
    ∧ ((New "" 0).setSink Sev.error { id := 7, err := none }).emitAt
        (fun _ => " ") Sev.info "x" []
      = (New "" 0).emitAt (fun _ => " ") Sev.info "x" []
    ∧ ((New "" 0).setSink Sev.error { id := 7, err := none }).i = (New "" 0).i
    ∧ ((New "" 0).setSink Sev.error { id := 7, err := none }).w = (New "" 0).w
    ∧ ((New "" 0).setSink Sev.error { id := 7, err := none }).e = (New "" 0).e
    ∧ ((New "" 0).setSink Sev.error { id := 7, err := none }).f = (New "" 0).f :=
  C7_sink_rebinding "" 0 { id := 7, err := none } (fun _ => " ") "x" []
    Sev.error Sev.info (by rfl) (by decide)

/-- C8: with the four channels bound to distinct sinks, a severity method
writes exactly one line to its own channel's sink — a line that begins with
the channel's one-character tag and contains the literal formatted message
— and writes nothing to the sink of any other channel. -/
theorem C8_channel_isolation (nm : String) (v : Int) (wi ww we wf : Writer)
    (hdr : Nat → String) (format : String) (args : List String) (s s' : Sev)
    (hi : wi.err = none) (hw : ww.err = none) (he : we.err = none)
    (hf : wf.err = none) (hne : s' ≠ s)
    (hid : (pick wi ww we wf s').id ≠ (pick wi ww we wf s).id) :
    ((fourSinks nm v wi ww we wf).emitAt hdr s format args).filter isOut
      = [Event.out (pick wi ww we wf s).id
          (tagOf s ++ hdr logDepth ++ sprintf format args)]
    ∧ ((fourSinks nm v wi ww we wf).emitAt hdr s format args).filter
        (outTo (pick wi ww we wf s').id) = []
    ∧ (∃ r, tagOf s ++ hdr logDepth ++ sprintf format args = tagOf s ++ r)
    ∧ (∃ p, tagOf s ++ hdr logDepth ++ sprintf format args
        = p ++ sprintf format args) := by
  have hid2 : (pick wi ww we wf s).id ≠ (pick wi ww we wf s').id := Ne.symm hid
  refine ⟨?_, ?_, ⟨hdr logDepth ++ sprintf format args, String.append_assoc _ _ _⟩,
    ⟨tagOf s ++ hdr logDepth, rfl⟩⟩ <;>
    cases s <;> cases s' <;>
      first
        | exact absurd rfl hne
        | simp_all [Logger.emitAt, Logger.Infof, Logger.Warnf, Logger.Errorf,
            Logger.Fatalf, write, Logable.Output, Logger.sinkOf, Logger.setSink,
            fourSinks, pick, New, tagOf, isOut, outTo, List.filter]

theorem C8_channel_isolation_witness :
    ((fourSinks "" 0 { id := 1, err := none } { id := 2, err := none }
        { id := 3, err := none } { id := 4, err := none }).emitAt
        (fun _ => " ") Sev.error "m%v" ["1"]).filter isOut
      = [Event.out (pick { id := 1, err := none } { id := 2, err := none }
            { id := 3, err := none } { id := 4, err := none } Sev.error).id
          (tagOf Sev.error ++ (fun _ : Nat => " ") logDepth ++ sprintf "m%v" ["1"])]
    ∧ ((fourSinks "" 0 { id := 1, err := none } { id := 2, err := none }
        { id := 3, err := none } { id := 4, err := none }).emitAt
        (fun _ => " ") Sev.error "m%v" ["1"]).filter
        (outTo (pick { id := 1, err := none } { id := 2, err := none }
            { id := 3, err := none } { id := 4, err := none } Sev.info).id) = []
    ∧ (∃ r, tagOf Sev.error ++ (fun _ : Nat => " ") logDepth ++ sprintf "m%v" ["1"]
        = tagOf Sev.error ++ r)
    ∧ (∃ p, tagOf Sev.error ++ (fun _ : Nat => " ") logDepth ++ sprintf "m%v" ["1"]
        = p ++ sprintf "m%v" ["1"]) :=
  C8_channel_isolation "" 0 { id := 1, err := none } { id := 2, err := none }
    { id := 3, err := none } { id := 4, err := none } (fun _ => " ") "m%v" ["1"]
    Sev.error Sev.info (by rfl) (by rfl) (by rfl) (by rfl) (by decide) (by decide)

/-- C3: `Panicf` first writes exactly one Error-tagged line containing the
formatted message to the Error sink (for a `New` logger: `os.Stderr`,
modelled with id `stderr.id`), and then panics with an error carrying
exactly that formatted message; the trace is complete at the point of the
panic, so a caller that recovers it sees no further effects. -/
theorem C3_panicf_writes_then_panics (nm : String) (v : Int) (hdr : Nat → String)
    (format : String) (args : List String) :
    Logger.Panicf (New nm v) hdr format args
      = ([Event.out stderr.id ("E" ++ hdr logDepth ++ sprintf format args)],
         sprintf format args) := by
  rfl

/-- C4 (amended): `Fatalf`, after writing the Fatal-tagged line, invokes the
exit callback if non-nil, passing it no arguments; the default callback
installed by `New` terminates the process with exit status 1, and different
exit behavior is obtained by replacing the callback itself. -/
theorem C4_fatalf_exit_callback (nm : String) (v : Int) (hdr : Nat → String)
    (format : String) (args : List String) (body : List Event) :
    Logger.Fatalf (New nm v) hdr format args
      = [Event.out stderr.id ("F" ++ hdr logDepth ++ sprintf format args),
         Event.exitCall [], Event.osExit 1]
    ∧ Logger.Fatalf ((New nm v).setExit (some body)) hdr format args
      = Event.out stderr.id ("F" ++ hdr logDepth ++ sprintf format args)
        :: Event.exitCall [] :: body := by
  exact ⟨rfl, rfl⟩

/-- C4 counterexample: the exit callback is invoked with no arguments — the
default `New` logger's `Fatalf` trace records the invocation `exitCall []`
and never an invocation `exitCall [1]` passing the exit status 1 the claim
says is handed to the callback (the status 1 is baked into the default
callback's own body, `os.Exit(1)`). -/
theorem C4_no_status_passed :
    Event.exitCall [] ∈ Logger.Fatalf (New "" 0) (fun _ => " ") "m" []
    ∧ Event.exitCall [1] ∉ Logger.Fatalf (New "" 0) (fun _ => " ") "m" [] := by
  decide

/-- C5 (amended): source-location attribution reports the immediate
caller's frame, not a frame inside the Logger or the emitter, identically
for a direct severity-method call (depth constant `logDepth`) and for the
package-level forwarding function (depth constant `rootDepth`); the two
named constants are kept separate but are currently equal (both 3), because
both paths interpose the same number of frames between the caller and
`Output`. -/
theorem C5_attribution_both_paths (c : String) :
    caller (methodCallStack c) logDepth = some c
    ∧ caller (rootCallStack c) rootDepth = some c
    ∧ rootDepth = logDepth
    ∧ logDepth = 3 := by
  exact ⟨rfl, rfl, rfl, rfl⟩

/-- C5 counterexample: the claim that correct attribution requires a
*differing* call-depth constant for the two paths is false — the two
constants are equal (`rootDepth = logDepth = 3`), and with these equal
constants both paths attribute a concrete call to the caller's frame. -/
theorem C5_constants_equal :
    rootDepth = logDepth
    ∧ caller (methodCallStack "pkg.Caller") logDepth = some "pkg.Caller"
    ∧ caller (rootCallStack "pkg.Caller") rootDepth = some "pkg.Caller" := by
  decide

/-- C6: with a nil `Exit` callback, `Fatalf` writes the Fatal-tagged line
and returns normally with no further effects, so execution continues past
the call; and in every case the write event is at the head of the trace,
before the control-flow consequence — the `Exit` invocation for `Fatalf`
(shown for an arbitrary callback body) and the panic for `Panicf` (whose
payload is produced only after the trace). -/
theorem C6_write_precedes_consequence (nm : String) (v : Int) (hdr : Nat → String)
    (format : String) (args : List String) (body : List Event) :
    Logger.Fatalf ((New nm v).setExit none) hdr format args
      = [Event.out stderr.id ("F" ++ hdr logDepth ++ sprintf format args)]
    ∧ Logger.Fatalf ((New nm v).setExit (some body)) hdr format args
      = Event.out stderr.id ("F" ++ hdr logDepth ++ sprintf format args)
        :: Event.exitCall [] :: body
    ∧ Logger.Panicf (New nm v) hdr format args
      = ([Event.out stderr.id ("E" ++ hdr logDepth ++ sprintf format args)],
         sprintf format args) := by
  exact ⟨rfl, rfl, rfl⟩

/-- C9: `NewTest` routes Info and Warn to the harness's record capability
(`Logf`); Error to record when `failOnError` is false and to
record-and-mark-failed (`Errorf`) when true; and Fatal always to
record-and-abort (`Fatalf`), regardless of `failOnError`. -/
theorem C9_newtest_routing (nm : String) (v : Int) (b : Bool) (hdr : Nat → String)
    (format : String) (args : List String) :
    Logger.Infof (NewTest nm b v) hdr format args
      = [Event.harness Cap.logf ("I" ++ hdr logDepth ++ sprintf format args)]
    ∧ Logger.Warnf (NewTest nm b v) hdr format args
      = [Event.harness Cap.logf ("W" ++ hdr logDepth ++ sprintf format args)]
    ∧ Logger.Errorf (NewTest nm true v) hdr format args
      = [Event.harness Cap.errorf ("E" ++ hdr logDepth ++ sprintf format args)]
    ∧ Logger.Errorf (NewTest nm false v) hdr format args
      = [Event.harness Cap.logf ("E" ++ hdr logDepth ++ sprintf format args)]
    ∧ Logger.Fatalf (NewTest nm b v) hdr format args
      = [Event.harness Cap.fatalf ("F" ++ hdr logDepth ++ sprintf format args)] := by
  cases b <;> exact ⟨rfl, rfl, rfl, rfl, rfl⟩

/-- C10: a `NewTest` logger has a nil `Exit` callback, so its `Fatalf`
invokes only the harness's record-and-abort capability — the trace is
exactly the one harness call, with no `Exit` invocation and no process
termination — and then returns normally. -/
theorem C10_newtest_nil_exit (nm : String) (v : Int) (b : Bool) (hdr : Nat → String)
    (format : String) (args : List String) :
    (NewTest nm b v).Exit = none
    ∧ Logger.Fatalf (NewTest nm b v) hdr format args
      = [Event.harness Cap.fatalf ("F" ++ hdr logDepth ++ sprintf format args)] := by
  cases b <;> exact ⟨rfl, rfl⟩

end GoLog
